import Mathlib

/-!
Verification of the midiplay core: a shallow embedding of the event
preprocessing / loading pipeline (`EventPreProcessor` / `MidiLoader`), the
`MidiTicks` value type, the `PlaybackSynchronizer` handshake, the
`MusicalDirector` marker interpreter and the `PlaybackOrchestrator`
sequencing loop, together with theorems about the properties stated in the
specification.

Machine integers of the C++ source are modelled as `Nat` / `Int`; raw MIDI
messages are modelled as their byte list (the representation `cxxmidi`
exposes through `operator[]`, `size()` and `GetText()`).
-/

set_option autoImplicit false

namespace MidiPlay

/-! ### Events

A `cxxmidi::Event` is a delta time plus the message bytes.  `GetText`
returns the data bytes of a meta event (everything after the status byte
and the meta-type byte); we keep texts as byte lists. -/

structure Event where
  dt : Nat
  bytes : List Nat
deriving DecidableEq, Repr

/-- Byte access `message[i]`; out-of-range reads (undefined in C++) are
totalized to 0. -/
def Event.byte (e : Event) (i : Nat) : Nat :=
  e.bytes.getD i 0

def Event.size (e : Event) : Nat :=
  e.bytes.length

/-- Text of a meta event: the bytes after status and meta type. -/
def Event.getText (e : Event) : List Nat :=
  e.bytes.drop 2

/-- SysEx status bytes 0xF0 / 0xF7. -/
def Event.isSysex (e : Event) : Bool :=
  e.byte 0 == 0xF0 || e.byte 0 == 0xF7

/-- Meta status byte 0xFF. -/
def Event.isMeta (e : Event) : Bool :=
  e.byte 0 == 0xFF

/-- Meta event of a given meta type (second byte). -/
def Event.isMetaType (e : Event) (t : Nat) : Bool :=
  e.isMeta && e.byte 1 == t

/-- Control-change status nibble 0xB. -/
def Event.isControlChange (e : Event) : Bool :=
  e.byte 0 / 16 == 0xB

/-- Control change of a given controller number (second byte). -/
def Event.isControlType (e : Event) (c : Nat) : Bool :=
  e.isControlChange && e.byte 1 == c

/-- Voice-category NoteOn (status nibble 0x9). -/
def Event.isNoteOn (e : Event) : Bool :=
  e.byte 0 / 16 == 0x9

/-- Voice-category NoteOff (status nibble 0x8). -/
def Event.isNoteOff (e : Event) : Bool :=
  e.byte 0 / 16 == 0x8

/-- Meta type numbers used by the source (cxxmidi `Message::MetaType`). -/
def MetaType.lyrics : Nat := 0x05
def MetaType.marker : Nat := 0x06
def MetaType.endOfTrack : Nat := 0x2F
def MetaType.tempo : Nat := 0x51
def MetaType.timeSignature : Nat := 0x58
def MetaType.keySignature : Nat := 0x59
def MetaType.sequencerSpecific : Nat := 0x7F

/-- Controller numbers admitted by `shouldLoadControlChangeEvent`. -/
def ControlType.dataEntryMsb : Nat := 0x06
def ControlType.dataEntryLsb : Nat := 0x26
def ControlType.nrpnLsb : Nat := 0x62
def ControlType.nrpnMsb : Nat := 0x63

/-- Marker texts from `midi_markers.hpp`, as byte lists. -/
def MidiMarkers.INTRO_BEGIN : List Nat := [91]
def MidiMarkers.INTRO_END : List Nat := [93]
def MidiMarkers.RITARDANDO_INDICATOR : List Nat := [92]
def MidiMarkers.D_C_AL_FINE : List Nat :=
  [68, 46, 67, 46, 32, 97, 108, 32, 70, 105, 110, 101]
def MidiMarkers.FINE_INDICATOR : List Nat := [70, 105, 110, 101]

/-- Constants from `constants.hpp` and `midi_constants.hpp`. -/
def MICROSECONDS_PER_MINUTE : Int := 60000000
def QUARTER_NOTE_DENOMINATOR : Int := 4
def DEFAULT_VERSES : Int := 1
def DEFAULT_TEMPO_USEC_PER_QUARTER : Int := 500000
def DEFAULT_TEMPO_BPM : Int := 120

/-- Interpretation of `static_cast<int8_t>` applied to a byte. -/
def int8OfByte (b : Nat) : Int :=
  if b < 128 then (b : Int) else (b : Int) - 256

/-! ### MidiTicks (`ticks.hpp`)

`setTicks` validates its argument and throws `std::invalid_argument` on a
negative value; the stored optional is only written on the non-negative
path.  We model the object state as `Option Int` and the throw as a
returned error message alongside the (unchanged) state. -/

structure MidiTicks where
  ticks : Option Int
deriving DecidableEq, Repr

/-- Default constructor: ticks is null. -/
def MidiTicks.mkNull : MidiTicks := ⟨none⟩

def MidiTicks.isNull (m : MidiTicks) : Bool :=
  m.ticks.isNone

/-- Model of `MidiTicks::setTicks`: returns the new object state and, on the
negative path, the thrown `std::invalid_argument` message. -/
def MidiTicks.setTicks (m : MidiTicks) (newTicks : Int) :
    MidiTicks × Option String :=
  if newTicks ≥ 0 then
    (⟨some newTicks⟩, none)
  else
    (m, some "MIDI ticks must be a non-negative integer.")

/-- Model of `MidiTicks::operator=`: delegates to `setTicks`. -/
def MidiTicks.assign (m : MidiTicks) (newTicks : Int) :
    MidiTicks × Option String :=
  m.setTicks newTicks

/-! ### PlaybackSynchronizer (`playback_synchronizer.cpp`)

The synchronizer is a mutex/condition-variable pair protecting one boolean
`finished_`.  Its sequential (state-machine) content is the evolution of
that flag: `notify` sets it; `wait` blocks while it is false and, once it
is true, clears it and returns.  `waitStep` returns `none` when the caller
would block and `some newFlag` when `wait` returns. -/

def PlaybackSynchronizer.notify (_finished : Bool) : Bool :=
  true

def PlaybackSynchronizer.reset (_finished : Bool) : Bool :=
  false

/-- One attempt of `wait()` on the completion flag: `none` means the caller
blocks (the flag is false); `some f` means `wait` returns leaving flag
state `f`. -/
def PlaybackSynchronizer.waitStep (finished : Bool) : Option Bool :=
  if finished then some false else none

/-! ### Key signature decoding (`processKeySignatureEvent`)

`keys_` is the fixed 18-entry table shared by `EventPreProcessor` and
`MidiLoader`.  The C++ reads `keys_[sf + 6]` (major) or `keys_[sf + 9]`
(minor) with no bounds check; an out-of-range index is undefined behavior
there, which the total model maps to the default `""`. -/

def keys : List String :=
  ["Gb", "Db", "Ab", "Eb", "Bb", "F", "C",
   "G", "D", "A", "E", "B", "F#", "C#", "G#", "D#", "A#", "e#"]

def MAJOR_KEY_OFFSET : Int := 6
def MINOR_KEY_OFFSET : Int := 9

/-- Index into `keys_` computed by `processKeySignatureEvent` for a decoded
signed sharps/flats count `sf` and major/minor flag `mi`. -/
def keySignatureIndex (sf : Int) (mi : Nat) : Int :=
  if mi = 0 then sf + MAJOR_KEY_OFFSET else sf + MINOR_KEY_OFFSET

/-- Key name produced by `processKeySignatureEvent` (totalized lookup). -/
def keySignatureName (sf : Int) (mi : Nat) : String :=
  if mi = 0 then
    keys.getD (sf + MAJOR_KEY_OFFSET).toNat ""
  else
    keys.getD (sf + MINOR_KEY_OFFSET).toNat "" ++ " minor"

/-! ### Loader state (`EventPreProcessor` / `MidiLoader` members)

`EventPreProcessor::processEvent` and `MidiLoader::loadCallback` contain the
same per-event logic over the same member variables (the loader additionally
holds `playIntro_`); we embed them once.  `bpm_` and `fileTempo_` are left
uninitialized by `reset()` in the C++; the model starts them at 0. -/

structure TimeSignature where
  beatsPerMeasure : Nat
  denominator : Nat
  clocksPerClick : Nat
  n32ndNotesPerQuaver : Nat
deriving DecidableEq, Repr

def TimeSignature.init : TimeSignature := ⟨0, 0, 0, 0⟩

structure IntroductionSegment where
  start : Nat
  stop : Nat
deriving DecidableEq, Repr

structure LoaderState where
  keySignature : String
  timeSignature : TimeSignature
  introSegments : List IntroductionSegment
  verses : Int
  uSecPerQuarter : Int
  fileTempo : Int
  bpm : Int
  pauseTicks : MidiTicks
  playIntro : Bool
  potentialStuckNote : Bool
  firstTempo : Bool
  currentTrack : Nat
  totalTrackTicks : Nat
  lastNoteOn : Nat
  lastNoteOff : Nat
deriving DecidableEq, Repr

/-- State after `reset()` / `resetState()`. -/
def LoaderState.init : LoaderState where
  keySignature := ""
  timeSignature := TimeSignature.init
  introSegments := []
  verses := 0
  uSecPerQuarter := 0
  fileTempo := 0
  bpm := 0
  pauseTicks := MidiTicks.mkNull
  playIntro := false
  potentialStuckNote := false
  firstTempo := true
  currentTrack := 0
  totalTrackTicks := 0
  lastNoteOn := 0
  lastNoteOff := 0

/-- Relevant command-line options (`options.hpp` accessors read by the
loader).  `bpm` and `uSecPerBeat` are both set by `--tempo`. -/
structure Opts where
  bpm : Int
  uSecPerBeat : Int
  verses : Int
  playIntro : Bool
deriving DecidableEq, Repr

/-- Defaults of `Options` with no tempo/verse options given. -/
def Opts.default : Opts where
  bpm := 0
  uSecPerBeat := 0
  verses := 0
  playIntro := true

/-- Model of `processTimeSignatureEvent`. -/
def processTimeSignatureEvent (st : LoaderState) (e : Event) : LoaderState :=
  if e.isMetaType MetaType.timeSignature && e.size == 6 then
    { st with timeSignature :=
        { beatsPerMeasure := e.byte 2
          denominator := e.byte 3
          clocksPerClick := e.byte 4
          n32ndNotesPerQuaver := e.byte 5 } }
  else st

/-- Model of `processTempoEvent`.  The C++ computes
`fileTempo_ = qpm * (pow(2.0, denominator) / 4.0)` in `double` and stores it
in an `int`; for the non-negative values arising here that truncation equals
the integer division `qpm * 2 ^ denominator / 4`.  A tempo override with
`uSecPerBeat = 0` divides by zero in the C++ (undefined); Lean integer
division totalizes it to 0. -/
def processTempoEvent (opts : Opts) (st : LoaderState) (e : Event) :
    LoaderState :=
  if e.isMetaType MetaType.tempo then
    let usq : Int := (e.byte 2) * 65536 + (e.byte 3) * 256 + (e.byte 4)
    let st := { st with uSecPerQuarter := usq }
    if st.firstTempo then
      let den := st.timeSignature.denominator
      let st :=
        if st.uSecPerQuarter > 0 then
          let qpm : Int := MICROSECONDS_PER_MINUTE / st.uSecPerQuarter
          { st with fileTempo := qpm * 2 ^ den / QUARTER_NOTE_DENOMINATOR }
        else
          { st with uSecPerQuarter := DEFAULT_TEMPO_USEC_PER_QUARTER
                    fileTempo := DEFAULT_TEMPO_BPM }
      let st :=
        if opts.bpm > 0 then
          let qpm : Int := MICROSECONDS_PER_MINUTE / opts.uSecPerBeat
          { st with bpm := qpm * 2 ^ den / QUARTER_NOTE_DENOMINATOR }
        else
          { st with bpm := st.fileTempo }
      { st with firstTempo := false }
    else st
  else st

/-- Model of `processKeySignatureEvent`. -/
def processKeySignatureEvent (st : LoaderState) (e : Event) : LoaderState :=
  if e.isMetaType MetaType.keySignature then
    let sf := int8OfByte (e.byte 2)
    let mi := e.byte 3
    { st with keySignature := keySignatureName sf mi }
  else st

def DEPRECATED_META_EVENT_VERSES : Nat := 0x10
def DEPRECATED_META_EVENT_PAUSE : Nat := 0x11

/-- Private-use marker and sub-ids from `custommessage.hpp`. -/
def CustomMessage.Private : Nat := 0x7D
def CustomMessage.NumberOfVerses : Nat := 0x01
def CustomMessage.PauseBetweenVerses : Nat := 0x02

/-- ASCII digit test used through `std::isdigit`. -/
def isDigitByte (c : Nat) : Bool :=
  48 ≤ c && c ≤ 57

/-- Model of `processCustomMetaEvents`: returns `false` (and the updated
state) when a custom event was found and the event is to be discarded,
`true` when no custom event was found. -/
def processCustomMetaEvents (st : LoaderState) (e : Event) :
    Bool × LoaderState :=
  let type := e.byte 1
  if type = DEPRECATED_META_EVENT_VERSES then
    let st :=
      if st.verses = 0 then
        let c := e.byte 2
        if isDigitByte c then { st with verses := (c : Int) - 48 } else st
      else st
    (false, st)
  else if type = DEPRECATED_META_EVENT_PAUSE then
    (false, { st with
        pauseTicks := (st.pauseTicks.assign ((e.byte 2) * 256 + e.byte 3)).1 })
  else if e.isMetaType MetaType.sequencerSpecific then
    let i := if e.byte 2 ≠ CustomMessage.Private then 3 else 2
    if e.byte i = CustomMessage.Private then
      if e.byte (i + 1) = CustomMessage.NumberOfVerses then
        let st :=
          if st.verses = 0 then
            let c := e.byte (i + 2)
            if isDigitByte c then { st with verses := (c : Int) - 48 } else st
          else st
        (false, st)
      else if e.byte (i + 1) = CustomMessage.PauseBetweenVerses then
        (false, { st with
            pauseTicks :=
              (st.pauseTicks.assign
                ((e.byte (i + 2)) * 256 + e.byte (i + 3))).1 })
      else (true, st)
    else (true, st)
  else (true, st)

/-- Write `introSegments_.back().end = t` (guarded by non-emptiness). -/
def setLastSegmentEnd (segs : List IntroductionSegment) (t : Nat) :
    List IntroductionSegment :=
  match segs.getLast? with
  | none => segs
  | some sg => segs.dropLast ++ [{ sg with stop := t }]

/-- Model of `processIntroductionMarkers` (track 0 only; called by the main
callback). -/
def processIntroductionMarkers (st : LoaderState) (e : Event) : LoaderState :=
  if e.isMetaType MetaType.marker && e.size == 3 then
    let text := e.getText
    let st :=
      if text = MidiMarkers.INTRO_BEGIN then
        { st with introSegments :=
            st.introSegments ++ [⟨st.totalTrackTicks, 0⟩] }
      else st
    if text = MidiMarkers.INTRO_END then
      { st with introSegments :=
          setLastSegmentEnd st.introSegments st.totalTrackTicks }
    else st
  else st

/-- Model of `shouldLoadControlChangeEvent`. -/
def shouldLoadControlChangeEvent (e : Event) : Bool :=
  e.isControlType ControlType.nrpnLsb ||
  e.isControlType ControlType.nrpnMsb ||
  e.isControlType ControlType.dataEntryMsb ||
  e.isControlType ControlType.dataEntryLsb

/-- End-of-track branch of the main callback: bump the track counter, run
the stuck-note heuristic on the most recently appended intro segment, and
reset the tick accumulator. -/
def processEndOfTrack (st : LoaderState) : LoaderState :=
  let st := { st with currentTrack := st.currentTrack + 1 }
  let st :=
    match st.introSegments.getLast? with
    | none => st
    | some sg =>
      if st.totalTrackTicks = sg.stop then
        if st.lastNoteOff ≥ sg.stop then
          { st with potentialStuckNote := true }
        else st
      else st
  { st with totalTrackTicks := 0 }

/-- Model of `EventPreProcessor::processEvent` (the per-event filter):
returns the accept/reject decision and the updated state.
`MidiLoader::loadCallback` is identical except that it ignores the verdict
of `processCustomMetaEvents`, which does not change the state evolution. -/
def processEvent (opts : Opts) (st : LoaderState) (e : Event) :
    Bool × LoaderState :=
  let st := { st with totalTrackTicks := st.totalTrackTicks + e.dt }
  if e.isSysex then (false, st)
  else if e.isControlChange then (shouldLoadControlChangeEvent e, st)
  else
    let metaStep : Option Bool × LoaderState :=
      if e.isMeta then
        if e.isMetaType MetaType.lyrics then (some false, st)
        else if st.totalTrackTicks = 0 then
          let st := processTimeSignatureEvent st e
          let st := processTempoEvent opts st e
          let st := processKeySignatureEvent st e
          let (keep, st) := processCustomMetaEvents st e
          (if keep then none else some false, st)
        else (none, st)
      else (none, st)
    match metaStep with
    | (some b, st) => (b, st)
    | (none, st) =>
      let st :=
        if st.currentTrack = 0 then processIntroductionMarkers st e else st
      let st :=
        if e.isNoteOn && e.byte 2 != 0 then
          { st with lastNoteOn := st.totalTrackTicks }
        else st
      let st :=
        if (e.isNoteOn && e.byte 2 == 0) || e.isNoteOff then
          { st with lastNoteOff := st.totalTrackTicks }
        else st
      let st :=
        if e.isMetaType MetaType.endOfTrack then processEndOfTrack st else st
      (true, st)

/-- Model of `MidiLoader::finalizeLoading`. -/
def finalizeLoading (st : LoaderState) : LoaderState :=
  let st := if st.verses = 0 then { st with verses := DEFAULT_VERSES } else st
  if st.introSegments.length = 0 then { st with playIntro := false } else st

/-- Model of `MidiLoader::loadFile` after the file-existence check: seed the
state from the options, run the load callback over every event in file
order, apply the `--tempo` override, default the pause duration to one
quarter note (`ppq` ticks), and finalize.  (Track-name scanning only fills
the title, which no claim concerns.) -/
def loadFile (opts : Opts) (events : List Event) (ppq : Nat) : LoaderState :=
  let st := { LoaderState.init with
                verses := opts.verses
                playIntro := opts.playIntro }
  let st := events.foldl (fun s e => (processEvent opts s e).2) st
  let st :=
    if opts.uSecPerBeat > 0 then { st with uSecPerQuarter := opts.uSecPerBeat }
    else st
  let st :=
    if st.pauseTicks.isNull then
      { st with pauseTicks := (st.pauseTicks.assign ppq).1 }
    else st
  finalizeLoading st

/-! ### Playback state machine (`playback_state_machine.hpp`) -/

structure PlaybackStateMachine where
  playingIntro : Bool
  ritardando : Bool
  lastVerse : Bool
  alFine : Bool
  displayWarnings : Bool
deriving DecidableEq, Repr

def PlaybackStateMachine.init : PlaybackStateMachine :=
  ⟨false, false, false, false, false⟩

/-! ### MusicalDirector (`musical_director.cpp`)

`handleEvent` runs on the engine callback thread; it mutates the state
machine, advances a cursor into the intro segment list and issues transport
commands to the player.  We model the player as the list of issued
commands. -/

inductive Transport where
  | stop
  | goToTick (t : Nat)
  | play
  | finish
  | notesOff
deriving DecidableEq, Repr

structure DirectorState where
  flags : PlaybackStateMachine
  cursor : Nat
deriving DecidableEq, Repr

/-- Model of `MusicalDirector::initializeIntroSegments`. -/
def initializeIntroSegments (md : LoaderState) (ds : DirectorState) :
    DirectorState :=
  if md.introSegments.length > 0 then { ds with cursor := 0 } else ds

/-- Model of `MusicalDirector::processIntroMarker`: advance the cursor; jump
to the next segment if one exists, otherwise stop and finish the pass (with
an all-notes-off under the stuck-note heuristic). -/
def processIntroMarker (md : LoaderState) (ds : DirectorState) :
    DirectorState × List Transport :=
  let c := ds.cursor + 1
  let jump :=
    if c < md.introSegments.length then
      [Transport.stop,
       Transport.goToTick ((md.introSegments.getD c ⟨0, 0⟩).start),
       Transport.play]
    else []
  let finishCmds :=
    if c ≥ md.introSegments.length then
      [Transport.stop, Transport.finish] ++
        (if md.potentialStuckNote then [Transport.notesOff] else [])
    else []
  ({ ds with cursor := c }, jump ++ finishCmds)

/-- Model of `MusicalDirector::processDCAlFineMarker`. -/
def processDCAlFineMarker (ds : DirectorState) :
    Bool × DirectorState × List Transport :=
  (false,
   { ds with flags := { ds.flags with alFine := true } },
   [Transport.stop, Transport.finish])

/-- Model of `MusicalDirector::processFineMarker`. -/
def processFineMarker (ds : DirectorState) :
    Bool × DirectorState × List Transport :=
  (false, ds, [Transport.stop, Transport.finish])

/-- Model of `MusicalDirector::handleEvent`: returns whether the event is
forwarded to the output device, with the updated director state and the
transport commands issued along the way. -/
def handleEvent (md : LoaderState) (ds : DirectorState) (e : Event) :
    Bool × DirectorState × List Transport :=
  let (ds, introCmds) :=
    if ds.flags.playingIntro && md.introSegments.length > 0 && e.isMeta
        && e.isMetaType MetaType.marker
        && e.getText == MidiMarkers.INTRO_END then
      processIntroMarker md ds
    else (ds, [])
  let ds :=
    if (ds.flags.playingIntro || ds.flags.lastVerse)
        && e.isMetaType MetaType.marker
        && e.getText == MidiMarkers.RITARDANDO_INDICATOR then
      { ds with flags := { ds.flags with ritardando := true } }
    else ds
  if ds.flags.lastVerse && e.isMetaType MetaType.marker
      && e.getText == MidiMarkers.D_C_AL_FINE then
    let (fwd, ds, cmds) := processDCAlFineMarker ds
    (fwd, ds, introCmds ++ cmds)
  else if ds.flags.alFine && e.isMetaType MetaType.marker
      && e.getText == MidiMarkers.FINE_INDICATOR then
    let (fwd, ds, cmds) := processFineMarker ds
    (fwd, ds, introCmds ++ cmds)
  else
    (true, ds, introCmds)

/-! ### PlaybackOrchestrator (`playback_orchestrator.cpp`)

`executePlayback` alternates `player_.Play()` with `synchronizer_.wait()`;
while a section plays, the engine callback thread (MusicalDirector /
RitardandoEffector) may mutate the state machine.  We parametrize the model
by an `Engine`: the cumulative effect the callback thread has on the flags
during the `n`-th play/wait cycle.  The trace records one `Cycle` per
play-then-wait pair together with the value of the last-verse flag while
that cycle plays. -/

def Engine : Type := Nat → PlaybackStateMachine → PlaybackStateMachine

inductive Phase where
  | intro
  | verse (n : Nat)
  | alFineReplay (n : Nat)
deriving DecidableEq, Repr

structure Cycle where
  phase : Phase
  lastVerse : Bool
deriving DecidableEq, Repr

/-- Model of `PlaybackOrchestrator::playIntroduction`: one play/wait cycle
with `isPlayingIntro` set, then the post-intro flag resets.  Returns the
cycle, the flag state afterwards, and the next wait index. -/
def playIntroduction (eng : Engine) (w : Nat) (st : PlaybackStateMachine) :
    Cycle × PlaybackStateMachine × Nat :=
  let st := { st with playingIntro := true, ritardando := false }
  let cyc : Cycle := ⟨Phase.intro, st.lastVerse⟩
  let st := eng w st
  let st := { st with ritardando := false, playingIntro := false }
  (cyc, st, w + 1)

/-- Model of the `for (verse = 0; verse < verses; verse++)` body of
`PlaybackOrchestrator::playVerses`, structurally recursing over the list of
remaining verse indices.  Each play/wait pair contributes one `Cycle`; when
`isAlFine()` is observed after the wait, the verse body is replayed once
more (rewind, play, wait). -/
def playVersesGo (eng : Engine) (verses : Nat) :
    List Nat → Nat → PlaybackStateMachine →
    List Cycle × PlaybackStateMachine × Nat
  | [], w, st => ([], st, w)
  | v :: rest, w, st =>
    let st := { st with ritardando := false }
    let st := if v = verses - 1 then { st with lastVerse := true } else st
    let cyc : Cycle := ⟨Phase.verse v, st.lastVerse⟩
    let st := eng w st
    if st.alFine then
      let cyc2 : Cycle := ⟨Phase.alFineReplay v, st.lastVerse⟩
      let st := eng (w + 1) st
      let (cs, st, w) := playVersesGo eng verses rest (w + 2) st
      (cyc :: cyc2 :: cs, st, w)
    else
      let (cs, st, w) := playVersesGo eng verses rest (w + 1) st
      (cyc :: cs, st, w)

/-- Model of `PlaybackOrchestrator::playVerses`. -/
def playVerses (eng : Engine) (verses : Int) (w : Nat)
    (st : PlaybackStateMachine) :
    List Cycle × PlaybackStateMachine × Nat :=
  playVersesGo eng verses.toNat (List.range verses.toNat) w st

/-- Model of `PlaybackOrchestrator::executePlayback`: optional introduction
followed by the verse loop, producing the trace of play/wait cycles. -/
def executePlayback (eng : Engine) (md : LoaderState)
    (st : PlaybackStateMachine) : List Cycle × PlaybackStateMachine :=
  if md.playIntro then
    let (cyc, st, w) := playIntroduction eng 0 st
    let (cs, st, _) := playVerses eng md.verses w st
    (cyc :: cs, st)
  else
    let (cs, st, _) := playVerses eng md.verses 0 st
    (cs, st)

/-! ### Concrete test vectors -/

/-- Marker meta event carrying the D.C. al Fine text. -/
def dcAlFineEvent : Event := ⟨0, [255, 6] ++ MidiMarkers.D_C_AL_FINE⟩

/-- Marker meta event carrying the Fine text. -/
def fineEvent : Event := ⟨0, [255, 6] ++ MidiMarkers.FINE_INDICATOR⟩

/-- A two-track event stream: track 0 holds two closed intro segments
(ticks 0–100 and 110–200) and ends at tick 250; track 1 holds one note
whose note-off lands at tick 100 and ends exactly at tick 100. -/
def stuckNoteStream : List Event :=
  [⟨0, [255, 6, 91]⟩,      -- marker "[" at tick 0
   ⟨100, [255, 6, 93]⟩,    -- marker "]" at tick 100
   ⟨10, [255, 6, 91]⟩,     -- marker "[" at tick 110
   ⟨90, [255, 6, 93]⟩,     -- marker "]" at tick 200
   ⟨50, [255, 47, 0]⟩,     -- end of track 0 at tick 250
   ⟨0, [144, 60, 64]⟩,     -- note on at tick 0 of track 1
   ⟨100, [128, 60, 0]⟩]    -- note off at tick 100 of track 1

/-- Loader state after scanning `stuckNoteStream`, just before track 1's
end-of-track event. -/
def stuckNotePreState : LoaderState :=
  stuckNoteStream.foldl (fun s e => (processEvent Opts.default s e).2)
    LoaderState.init

/-! ## Helper lemmas -/

theorem processTimeSignatureEvent_verses (st : LoaderState) (e : Event) :
    (processTimeSignatureEvent st e).verses = st.verses := by
  unfold processTimeSignatureEvent
  split <;> rfl

theorem processTempoEvent_verses (opts : Opts) (st : LoaderState)
    (e : Event) : (processTempoEvent opts st e).verses = st.verses := by
  unfold processTempoEvent
  dsimp only
  split_ifs <;> rfl

theorem processKeySignatureEvent_verses (st : LoaderState) (e : Event) :
    (processKeySignatureEvent st e).verses = st.verses := by
  unfold processKeySignatureEvent
  split <;> rfl

theorem processIntroductionMarkers_verses (st : LoaderState) (e : Event) :
    (processIntroductionMarkers st e).verses = st.verses := by
  unfold processIntroductionMarkers
  dsimp only
  split_ifs <;> rfl

theorem processEndOfTrack_verses (st : LoaderState) :
    (processEndOfTrack st).verses = st.verses := by
  unfold processEndOfTrack
  dsimp only
  split
  · rfl
  · split_ifs <;> rfl

theorem processCustomMetaEvents_verses_nonneg (st : LoaderState) (e : Event)
    (h : 0 ≤ st.verses) : 0 ≤ (processCustomMetaEvents st e).2.verses := by
  unfold processCustomMetaEvents
  dsimp only
  split_ifs <;> simp_all [isDigitByte]

theorem processEvent_verses_nonneg (opts : Opts) (st : LoaderState)
    (e : Event) (h : 0 ≤ st.verses) :
    0 ≤ ((processEvent opts st e).2).verses := by
  have hchain : ∀ s : LoaderState, 0 ≤ s.verses →
      0 ≤ ((processCustomMetaEvents
        (processKeySignatureEvent
          (processTempoEvent opts (processTimeSignatureEvent s e) e) e)
        e).2).verses := by
    intro s hs
    apply processCustomMetaEvents_verses_nonneg
    rw [processKeySignatureEvent_verses, processTempoEvent_verses,
      processTimeSignatureEvent_verses]
    exact hs
  unfold processEvent
  dsimp only
  split
  · exact h
  split
  · exact h
  split
  next b stX heq =>
    replace heq := congrArg Prod.snd heq
    dsimp only at heq
    rw [← heq]
    repeat' split
    all_goals first | exact h | exact hchain _ h
  next stX heq =>
    replace heq := congrArg Prod.snd heq
    dsimp only at heq
    have hX : 0 ≤ stX.verses := by
      rw [← heq]
      repeat' split
      all_goals first | exact h | exact hchain _ h
    repeat' split
    all_goals
      try simp only [processEndOfTrack_verses, processIntroductionMarkers_verses]
    all_goals exact hX

theorem finalizeLoading_verses_pos (st : LoaderState) (h : 0 ≤ st.verses) :
    1 ≤ (finalizeLoading st).verses := by
  unfold finalizeLoading
  dsimp only
  split_ifs <;> simp_all [DEFAULT_VERSES] <;> omega

theorem foldl_processEvent_verses_nonneg (opts : Opts) (events : List Event)
    (s : LoaderState) (h : 0 ≤ s.verses) :
    0 ≤ (events.foldl (fun s e => (processEvent opts s e).2) s).verses := by
  induction events generalizing s with
  | nil => exact h
  | cons e l ih => exact ih _ (processEvent_verses_nonneg opts s e h)

/-! ## Theorems -/

/-- C8: for every event stream and option set with a non-negative
command-line verse override, the verse count after post-load finalization
is at least 1 (defaulted to 1 when no directive or override set it). -/
theorem verses_at_least_one_after_load (opts : Opts) (events : List Event)
    (ppq : Nat) (h : 0 ≤ opts.verses) :
    1 ≤ (loadFile opts events ppq).verses := by
  unfold loadFile
  dsimp only
  apply finalizeLoading_verses_pos
  repeat' split
  all_goals exact foldl_processEvent_verses_nonneg opts events _ h

/-- C8 witness: an empty stream with default options loads with one verse. -/
theorem verses_at_least_one_after_load_witness :
    1 ≤ (loadFile Opts.default [] 480).verses := by
  exact verses_at_least_one_after_load Opts.default [] 480 (by decide)

/-- C6 amended: for every end-of-track meta event, if the MOST RECENTLY
APPENDED IntroductionSegment's end tick equals the just-ended track's total
tick count and the recorded last-note-off tick is at least that end tick,
then the stuck-note heuristic flag is set true.  (The code inspects only
the last segment of the list, not every segment.) -/
theorem stuckNote_last_segment_amended (opts : Opts) (st : LoaderState)
    (dt : Nat) (sg : IntroductionSegment)
    (hseg : st.introSegments.getLast? = some sg)
    (hend : st.totalTrackTicks + dt = sg.stop)
    (hoff : sg.stop ≤ st.lastNoteOff) :
    ((processEvent opts st ⟨dt, [255, 47, 0]⟩).2).potentialStuckNote = true := by
  have hS : (⟨dt, [255, 47, 0]⟩ : Event).isSysex = false := rfl
  have hCC : (⟨dt, [255, 47, 0]⟩ : Event).isControlChange = false := by
    simp [Event.isControlChange, Event.byte]
  have hMeta : (⟨dt, [255, 47, 0]⟩ : Event).isMeta = true := rfl
  have hLy : (⟨dt, [255, 47, 0]⟩ : Event).isMetaType MetaType.lyrics = false := rfl
  have hNoteOn : (⟨dt, [255, 47, 0]⟩ : Event).isNoteOn = false := by
    simp [Event.isNoteOn, Event.byte]
  have hNoteOff : (⟨dt, [255, 47, 0]⟩ : Event).isNoteOff = false := by
    simp [Event.isNoteOff, Event.byte]
  have hEOT : (⟨dt, [255, 47, 0]⟩ : Event).isMetaType MetaType.endOfTrack
      = true := rfl
  have hts : ∀ s : LoaderState,
      processTimeSignatureEvent s ⟨dt, [255, 47, 0]⟩ = s := fun s => rfl
  have htm : ∀ s : LoaderState,
      processTempoEvent opts s ⟨dt, [255, 47, 0]⟩ = s := fun s => rfl
  have hks : ∀ s : LoaderState,
      processKeySignatureEvent s ⟨dt, [255, 47, 0]⟩ = s := fun s => rfl
  have hcm : ∀ s : LoaderState,
      processCustomMetaEvents s ⟨dt, [255, 47, 0]⟩ = (true, s) := fun s => rfl
  have him : ∀ s : LoaderState,
      processIntroductionMarkers s ⟨dt, [255, 47, 0]⟩ = s := fun s => rfl
  have hgoal : ∀ s : LoaderState, s.introSegments = st.introSegments →
      s.totalTrackTicks = st.totalTrackTicks + dt →
      s.lastNoteOff = st.lastNoteOff →
      (processEndOfTrack s).potentialStuckNote = true := by
    intro s h1 h2 h3
    unfold processEndOfTrack
    dsimp only
    rw [h1, hseg]
    dsimp only
    rw [h2, hend, if_pos rfl, if_pos (h3 ▸ hoff)]
  simp only [processEvent, hS, hCC, hMeta, hLy, hNoteOn, hNoteOff, hEOT,
    hts, htm, hks, hcm, him, Bool.false_eq_true, Bool.and_self, if_false,
    if_true, ite_self, Bool.false_and, Bool.true_and, Bool.and_false,
    Bool.and_true, Bool.false_or, Bool.or_false, Bool.or_self]
  exact hgoal _ rfl rfl rfl

/-- C1: with finalized verse count 3 and intro playback enabled (at least
one IntroductionSegment), and engine callbacks that preserve the
alternate-ending and last-verse flags across each play/wait cycle (the
MusicalDirector never writes the last-verse flag, and writes the
alternate-ending flag only on a D.C. al Fine marker in the last verse,
absent here), executePlayback issues exactly one introduction play/wait
cycle followed by exactly three verse play/wait cycles, with the
last-verse flag true only during the third verse cycle. -/
theorem executePlayback_three_verses_trace (eng : Engine) (md : LoaderState)
    (hA : ∀ (n : Nat) (s : PlaybackStateMachine), (eng n s).alFine = s.alFine)
    (hL : ∀ (n : Nat) (s : PlaybackStateMachine),
      (eng n s).lastVerse = s.lastVerse)
    (hv : md.verses = 3) (hi : md.playIntro = true)
    (_hseg : md.introSegments ≠ []) :
    (executePlayback eng md PlaybackStateMachine.init).1 =
      [⟨Phase.intro, false⟩, ⟨Phase.verse 0, false⟩,
       ⟨Phase.verse 1, false⟩, ⟨Phase.verse 2, true⟩] := by
  have hr : List.range 3 = [0, 1, 2] := rfl
  simp [executePlayback, playIntroduction, playVerses, playVersesGo,
    PlaybackStateMachine.init, hA, hL, hv, hi, hr]

/-- C1 witness: the trace at a concrete metadata bundle and the identity
engine. -/
theorem executePlayback_three_verses_trace_witness :
    (executePlayback (fun _ s => s)
      { LoaderState.init with
          verses := 3, playIntro := true, introSegments := [⟨0, 100⟩] }
      PlaybackStateMachine.init).1 =
      [⟨Phase.intro, false⟩, ⟨Phase.verse 0, false⟩,
       ⟨Phase.verse 1, false⟩, ⟨Phase.verse 2, true⟩] := by
  exact executePlayback_three_verses_trace (fun _ s => s)
    { LoaderState.init with
        verses := 3, playIntro := true, introSegments := [⟨0, 100⟩] }
    (fun _ _ => rfl) (fun _ _ => rfl) rfl rfl (by decide)

/-- C2: a D.C. al Fine marker is suppressed (handleEvent returns false)
exactly when the last-verse flag is true; in that case the alternate-ending
flag is set true and stop/finish are issued.  A subsequent Fine marker
while the alternate-ending flag is true is also suppressed and issues
stop/finish. -/
theorem handleEvent_dcAlFine_fine_spec :
    (∀ (md : LoaderState) (ds : DirectorState),
      ((handleEvent md ds dcAlFineEvent).1 = false ↔ ds.flags.lastVerse = true))
    ∧ (∀ (md : LoaderState) (ds : DirectorState), ds.flags.lastVerse = true →
        (handleEvent md ds dcAlFineEvent).1 = false
        ∧ (handleEvent md ds dcAlFineEvent).2.1.flags.alFine = true
        ∧ (handleEvent md ds dcAlFineEvent).2.2
            = [Transport.stop, Transport.finish])
    ∧ (∀ (md : LoaderState) (ds : DirectorState), ds.flags.alFine = true →
        (handleEvent md ds fineEvent).1 = false
        ∧ (handleEvent md ds fineEvent).2.2
            = [Transport.stop, Transport.finish]) := by
  have hdcIntro : (dcAlFineEvent.getText == MidiMarkers.INTRO_END) = false := rfl
  have hdcRit : (dcAlFineEvent.getText == MidiMarkers.RITARDANDO_INDICATOR)
      = false := rfl
  have hdcDC : (dcAlFineEvent.getText == MidiMarkers.D_C_AL_FINE) = true := rfl
  have hdcFine : (dcAlFineEvent.getText == MidiMarkers.FINE_INDICATOR)
      = false := rfl
  have hdcMark : dcAlFineEvent.isMetaType MetaType.marker = true := rfl
  have hdcMeta : dcAlFineEvent.isMeta = true := rfl
  have hfIntro : (fineEvent.getText == MidiMarkers.INTRO_END) = false := rfl
  have hfRit : (fineEvent.getText == MidiMarkers.RITARDANDO_INDICATOR)
      = false := rfl
  have hfDC : (fineEvent.getText == MidiMarkers.D_C_AL_FINE) = false := rfl
  have hfFine : (fineEvent.getText == MidiMarkers.FINE_INDICATOR) = true := rfl
  have hfMark : fineEvent.isMetaType MetaType.marker = true := rfl
  have hfMeta : fineEvent.isMeta = true := rfl
  refine ⟨fun md ds => ?_, fun md ds h => ?_, fun md ds h => ?_⟩
  · cases hLV : ds.flags.lastVerse <;>
      simp [handleEvent, processDCAlFineMarker, hdcIntro, hdcRit, hdcDC,
        hdcFine, hdcMark, hdcMeta, hLV]
  · refine ⟨?_, ?_, ?_⟩ <;>
      simp [handleEvent, processDCAlFineMarker, hdcIntro, hdcRit, hdcDC,
        hdcFine, hdcMark, hdcMeta, h]
  · refine ⟨?_, ?_⟩ <;>
      simp [handleEvent, processFineMarker, hfIntro, hfRit, hfDC, hfFine,
        hfMark, hfMeta, h]

/-- C2 witness: the specification applied at a concrete director state. -/
theorem handleEvent_dcAlFine_fine_spec_witness :
    (handleEvent LoaderState.init
        ⟨{ PlaybackStateMachine.init with lastVerse := true }, 0⟩
        dcAlFineEvent).1 = false
    ∧ (handleEvent LoaderState.init
        ⟨{ PlaybackStateMachine.init with lastVerse := true }, 0⟩
        dcAlFineEvent).2.1.flags.alFine = true
    ∧ (handleEvent LoaderState.init
        ⟨{ PlaybackStateMachine.init with alFine := true }, 0⟩
        fineEvent).1 = false := by
  refine ⟨?_, ?_, ?_⟩
  · exact (handleEvent_dcAlFine_fine_spec.2.1 LoaderState.init
      ⟨{ PlaybackStateMachine.init with lastVerse := true }, 0⟩ rfl).1
  · exact (handleEvent_dcAlFine_fine_spec.2.1 LoaderState.init
      ⟨{ PlaybackStateMachine.init with lastVerse := true }, 0⟩ rfl).2.1
  · exact (handleEvent_dcAlFine_fine_spec.2.2 LoaderState.init
      ⟨{ PlaybackStateMachine.init with alFine := true }, 0⟩ rfl).1

/-- C6 amended witness: the stuck-note flag is set when track 1 ends exactly
at the last segment's end tick with a note-off at or past it. -/
theorem stuckNote_last_segment_amended_witness :
    ((processEvent Opts.default
        { LoaderState.init with
            introSegments := [⟨0, 100⟩], totalTrackTicks := 90,
            lastNoteOff := 100 }
        ⟨10, [255, 47, 0]⟩).2).potentialStuckNote = true := by
  exact stuckNote_last_segment_amended Opts.default
    { LoaderState.init with
        introSegments := [⟨0, 100⟩], totalTrackTicks := 90,
        lastNoteOff := 100 }
    10 ⟨0, 100⟩ rfl rfl (by decide)

/-- C3: the synchronizer's completion-flag state machine: a `notify` makes
the next `wait` return immediately; `notify` is idempotent, so after two
`notify` calls a single `wait` consumes the signal once and a second
immediate `wait` blocks; and whenever `wait` returns it leaves the flag
cleared to false. -/
theorem synchronizer_flag_spec :
    (∀ f : Bool,
        PlaybackSynchronizer.waitStep (PlaybackSynchronizer.notify f) =
          some false)
    ∧ (∀ f : Bool,
        PlaybackSynchronizer.notify (PlaybackSynchronizer.notify f) =
          PlaybackSynchronizer.notify f)
    ∧ PlaybackSynchronizer.waitStep false = none
    ∧ (∀ f : Bool,
        PlaybackSynchronizer.waitStep f = none ∨
          PlaybackSynchronizer.waitStep f = some false) := by
  refine ⟨fun f => rfl, fun f => rfl, rfl, fun f => ?_⟩
  cases f
  · exact Or.inl rfl
  · exact Or.inr rfl

/-- C9: `MidiTicks.setTicks` (and assignment) rejects a negative argument
with `std::invalid_argument`, leaving the stored optional unchanged; a
non-negative argument is stored exactly; a default-constructed `MidiTicks`
holds no value. -/
theorem midiTicks_setTicks_spec :
    (∀ (m : MidiTicks) (n : Int), n < 0 →
        m.setTicks n = (m, some "MIDI ticks must be a non-negative integer."))
    ∧ (∀ (m : MidiTicks) (n : Int), 0 ≤ n →
        m.setTicks n = (⟨some n⟩, none))
    ∧ (∀ (m : MidiTicks) (n : Int), m.assign n = m.setTicks n)
    ∧ MidiTicks.mkNull.isNull = true := by
  refine ⟨fun m n h => ?_, fun m n h => ?_, fun m n => rfl, rfl⟩
  · simp [MidiTicks.setTicks, not_le.mpr h]
  · simp [MidiTicks.setTicks, h]

/-- C9 witness: concrete instances of the `setTicks` specification. -/
theorem midiTicks_setTicks_spec_witness :
    MidiTicks.setTicks ⟨some 7⟩ (-1) =
      (⟨some 7⟩, some "MIDI ticks must be a non-negative integer.")
    ∧ MidiTicks.setTicks ⟨none⟩ 42 = (⟨some 42⟩, none) := by
  exact ⟨midiTicks_setTicks_spec.1 ⟨some 7⟩ (-1) (by decide),
         midiTicks_setTicks_spec.2.1 ⟨none⟩ 42 (by decide)⟩

/-- C5: the key-name table has 18 entries, yet the index the code computes
is used without any bounds check: the valid int8 input sf = 127 (mi = 0)
produces index 133 and sf = -10 (byte 246, mi = 1) produces index -1, both
outside [0, 18), so the table read is out of bounds rather than a clean
rejection. -/
theorem keySignature_index_unchecked :
    keys.length = 18
    ∧ int8OfByte 127 = 127
    ∧ keySignatureIndex 127 0 = 133
    ∧ ¬ keySignatureIndex 127 0 < 18
    ∧ int8OfByte 246 = -10
    ∧ keySignatureIndex (-10) 1 = -1
    ∧ keySignatureIndex (-10) 1 < 0 := by
  refine ⟨rfl, rfl, rfl, by decide, rfl, rfl, by decide⟩

/-- C4 counterexample: a key-signature meta event with sf = 1, mi = 1
decodes to "E minor" (table index 1 + 9 = 10), not "A minor" as the claim
states. -/
theorem keySignature_sf1_mi1_counterexample :
    (processKeySignatureEvent LoaderState.init ⟨0, [255, 89, 1, 1]⟩).keySignature
      = "E minor"
    ∧ (processKeySignatureEvent LoaderState.init
        ⟨0, [255, 89, 1, 1]⟩).keySignature ≠ "A minor" := by
  refine ⟨rfl, ?_⟩
  intro h
  simp only [processKeySignatureEvent] at h
  revert h
  decide

/-- C4 amended: key-signature decoding maps sf and mi to a name via the
fixed 18-entry table at offset sf + 6 for mi = 0 and sf + 9 (with " minor"
appended) for mi = 1; in particular sf = 0, mi = 0 yields "C";
sf = -1, mi = 0 yields "F"; and sf = 1, mi = 1 yields "E minor"
(sf = 0, mi = 1 yields "A minor"). -/
theorem keySignature_table_amended (st : LoaderState) (dt : Nat)
    (sf : Int) (mi : Nat)
    (hmaj : (sf + 6).toNat < keys.length) (hmin : (sf + 9).toNat < keys.length) :
    (mi = 0 → keySignatureName sf mi = keys.get ⟨(sf + 6).toNat, hmaj⟩)
    ∧ (mi ≠ 0 →
        keySignatureName sf mi = keys.get ⟨(sf + 9).toNat, hmin⟩ ++ " minor")
    ∧ (processKeySignatureEvent st ⟨dt, [255, 89, 0, 0]⟩).keySignature = "C"
    ∧ (processKeySignatureEvent st ⟨dt, [255, 89, 255, 0]⟩).keySignature = "F"
    ∧ (processKeySignatureEvent st ⟨dt, [255, 89, 1, 1]⟩).keySignature
        = "E minor"
    ∧ (processKeySignatureEvent st ⟨dt, [255, 89, 0, 1]⟩).keySignature
        = "A minor" := by
  refine ⟨fun h0 => ?_, fun h0 => ?_, rfl, rfl, rfl, rfl⟩
  · simp [keySignatureName, h0, MAJOR_KEY_OFFSET, List.getD_eq_getElem, hmaj,
      List.get_eq_getElem]
  · simp [keySignatureName, h0, MINOR_KEY_OFFSET, List.getD_eq_getElem, hmin,
      List.get_eq_getElem]

/-- C4 amended witness: the table lookup evaluated at sf = 1, mi = 1. -/
theorem keySignature_table_amended_witness :
    keySignatureName 1 1 = keys.get ⟨10, by decide⟩ ++ " minor" := by
  exact (keySignature_table_amended LoaderState.init 0 1 1 (by decide)
    (by decide)).2.1 (by decide)

/-- C7: on the first tempo meta event, usec-per-quarter 500000 with
denominator exponent 2 and no tempo override gives file tempo 120 (and
effective bpm 120); a decoded usec-per-quarter of 0 falls back to the
defaults 500000 usec and file tempo 120. -/
theorem firstTempo_computation (opts : Opts) (st : LoaderState) (dt : Nat)
    (hf : st.firstTempo = true) (hd : st.timeSignature.denominator = 2)
    (hb : opts.bpm = 0) :
    ((processTempoEvent opts st ⟨dt, [255, 81, 7, 161, 32]⟩).fileTempo = 120
      ∧ (processTempoEvent opts st ⟨dt, [255, 81, 7, 161, 32]⟩).bpm = 120)
    ∧ ((processTempoEvent opts st ⟨dt, [255, 81, 0, 0, 0]⟩).uSecPerQuarter
          = 500000
      ∧ (processTempoEvent opts st ⟨dt, [255, 81, 0, 0, 0]⟩).fileTempo = 120) := by
  have hnb : ¬ opts.bpm > 0 := by omega
  simp [processTempoEvent, Event.isMetaType, Event.isMeta, Event.byte, hf, hd,
    hnb, MICROSECONDS_PER_MINUTE, QUARTER_NOTE_DENOMINATOR,
    DEFAULT_TEMPO_USEC_PER_QUARTER, DEFAULT_TEMPO_BPM, MetaType.tempo]

/-- C10: a verse-count directive carrying the ASCII digit 0 assigns verse
count 0 (the directive itself is discarded), which is indistinguishable
from the unset sentinel: a later directive still sets the count, and
finalization defaults it to 1, so a file whose only verse directive carries
the digit 0 plays exactly one verse.  Both the legacy type 0x10 and the
modern sequencer-private sub-id 0x01 encodings are covered. -/
theorem verseDirective_zero_spec :
    ((processEvent Opts.default LoaderState.init ⟨0, [255, 16, 48]⟩).2.verses = 0
      ∧ (processEvent Opts.default LoaderState.init ⟨0, [255, 16, 48]⟩).1 = false)
    ∧ ((processEvent Opts.default LoaderState.init
          ⟨0, [255, 127, 125, 1, 48]⟩).2.verses = 0
      ∧ (processEvent Opts.default LoaderState.init
          ⟨0, [255, 127, 125, 1, 48]⟩).1 = false)
    ∧ ([⟨0, [255, 16, 48]⟩, ⟨0, [255, 16, 51]⟩].foldl
          (fun s e => (processEvent Opts.default s e).2)
          LoaderState.init).verses = 3
    ∧ (loadFile Opts.default [⟨0, [255, 16, 48]⟩] 480).verses = 1
    ∧ (loadFile Opts.default [⟨0, [255, 127, 125, 1, 48]⟩] 480).verses = 1
    ∧ (executePlayback (fun _ s => s)
          (loadFile Opts.default [⟨0, [255, 16, 48]⟩] 480)
          PlaybackStateMachine.init).1 = [⟨Phase.verse 0, true⟩] := by
  refine ⟨⟨rfl, rfl⟩, ⟨rfl, rfl⟩, rfl, rfl, rfl, rfl⟩

/-- C6 counterexample: at track 1's end-of-track event the accumulated
segment list is [(0,100), (110,200)], the track's total tick count is 100
and the last note-off tick is 100, so the first segment satisfies the
claim's "any segment" condition (end 100 = total 100 ≤ last note-off), yet
the code inspects only the most recently appended segment (end 200) and
leaves the stuck-note flag false. -/
theorem stuckNote_any_segment_counterexample :
    stuckNotePreState.introSegments = [⟨0, 100⟩, ⟨110, 200⟩]
    ∧ stuckNotePreState.totalTrackTicks = 100
    ∧ stuckNotePreState.lastNoteOff = 100
    ∧ (∃ sg ∈ stuckNotePreState.introSegments,
        sg.stop = stuckNotePreState.totalTrackTicks
        ∧ stuckNotePreState.lastNoteOff ≥ sg.stop)
    ∧ (processEvent Opts.default stuckNotePreState
        ⟨0, [255, 47, 0]⟩).2.potentialStuckNote = false := by
  refine ⟨rfl, rfl, rfl, ⟨⟨0, 100⟩, by decide⟩, rfl⟩

/-- C7 witness: the tempo computation at a concrete state and options. -/
theorem firstTempo_computation_witness :
    (processTempoEvent Opts.default
      { LoaderState.init with
          timeSignature := { TimeSignature.init with denominator := 2 } }
      ⟨0, [255, 81, 7, 161, 32]⟩).fileTempo = 120 := by
  exact (firstTempo_computation Opts.default
    { LoaderState.init with
        timeSignature := { TimeSignature.init with denominator := 2 } }
    0 rfl rfl rfl).1.1

end MidiPlay
